import Mathlib

/-!
Verification of the client-side authentication state reconciliation core
(the `useAuth` hook): session store, event subscriber, profile-completion
prober, and the interactive sign-in / sign-out operations.

The embedding translates each state update (`setAuthState` call site),
the retry/timeout combinators, the debounce timer, and the
module-scoped subscription guard into pure Lean definitions.
-/

namespace Cendy

/-- User-identity record embedded in a session (only the subject
identifier is relevant to the core). -/
structure User where
  id : String
deriving DecidableEq, Repr

/-- Cached session bundle issued by the external identity platform;
the core only reads the embedded user record. -/
structure Session where
  user : User
deriving DecidableEq, Repr

/-- Error values stored in `AuthState.error`, one constructor per error
site of the hook (the `t(...)` message keys and pass-through platform
errors). -/
inductive AuthError where
  | initializeSession
  | noOAuthUrl
  | oauthError (code : String)
  | studentEmailRequired
  | noAccessToken
  | oauthCanceled
  | signIn
  | signOut
  | getSession
  | refreshFailed (msg : String)
  | postgrest (msg : String)
  | sessionSet (msg : String)
  | platform (msg : String)
deriving DecidableEq, Repr

/-- The exported auth snapshot, mirroring the `AuthState` interface. -/
structure AuthState where
  session : Option Session
  user : Option User
  loading : Bool
  error : Option AuthError
  needsProfileCompletion : Option Bool
deriving DecidableEq, Repr

/-- Initial `useState` value: everything absent, `loading: true`. -/
def initialState : AuthState :=
  { session := none, user := none, loading := true, error := none,
    needsProfileCompletion := none }

/-- Truthiness of `session?.user?.id` in the source: a session is
present and its user id is a nonempty string. -/
def hasUserId (session : Option Session) : Bool :=
  match session with
  | none => false
  | some s => s.user.id != ""

/-- State written by `initializeSession`: on success the retrieved
session (possibly absent) with derived user and null flags; on failure
a signed-out state carrying the error. -/
def initializeSession (outcome : Except AuthError (Option Session)) : AuthState :=
  match outcome with
  | .ok session =>
      { session := session, user := session.map Session.user,
        loading := false, error := none, needsProfileCompletion := none }
  | .error e =>
      { session := none, user := none, loading := false, error := some e,
        needsProfileCompletion := none }

/-- State written by the `onAuthStateChange` handler for any event other
than a `SIGNED_IN` carrying a user: a whole-state replacement from the
event session. -/
def directUpdate (session : Option Session) : AuthState :=
  { session := session, user := session.map Session.user,
    loading := false, error := none, needsProfileCompletion := none }

/-- State written when the debounced `SIGNED_IN` profile check
completes: the captured event session with the probe result (`true` on
an escaped exception); both branches store `error: null`. -/
def signedInApply (sess : Session) (npc : Bool) : AuthState :=
  { session := some sess, user := some sess.user, loading := false,
    error := none, needsProfileCompletion := some npc }

/-- Entry update of each interactive operation:
`{...prev, loading: true, error: null}`. -/
def opStart (prev : AuthState) : AuthState :=
  { prev with loading := true, error := none }

/-- Catch-branch update shared by sign-in, sign-out and `getSession`:
`{...prev, loading: false, error, needsProfileCompletion: null}`. -/
def opFail (prev : AuthState) (e : AuthError) : AuthState :=
  { prev with
    loading := false
    error := some e
    needsProfileCompletion := none }

/-- State written on sign-out success: all fields cleared. -/
def signedOutState : AuthState :=
  { session := none, user := none, loading := false, error := none,
    needsProfileCompletion := none }

/-- Success update of `getSession`: merges the fetched session over the
previous state; the probe only ran when `session?.user?.id` is truthy,
otherwise `needsProfileCompletion` stays null. -/
def getSessionApply (prev : AuthState) (session : Option Session)
    (probeRes : Bool) : AuthState :=
  { prev with
    session := session
    user := session.map Session.user
    loading := false
    error := none
    needsProfileCompletion := if hasUserId session then some probeRes else none }

/-- One state-store transition: exactly the `setAuthState` call sites of
the hook, each parameterized by the data its completion carried. -/
inductive Step : AuthState → AuthState → Prop where
  | initDone (s : AuthState) (outcome : Except AuthError (Option Session)) :
      Step s (initializeSession outcome)
  | eventDirect (s : AuthState) (session : Option Session) :
      Step s (directUpdate session)
  | probeApplied (s : AuthState) (sess : Session) (npc : Bool) :
      Step s (signedInApply sess npc)
  | opStarted (s : AuthState) : Step s (opStart s)
  | opFailed (s : AuthState) (e : AuthError) : Step s (opFail s e)
  | signOutDone (s : AuthState) : Step s signedOutState
  | getSessionDone (s : AuthState) (session : Option Session) (probeRes : Bool) :
      Step s (getSessionApply s session probeRes)

/-- A state is reachable when some interleaving of completions produces
it from the initial snapshot. -/
def Reachable (s : AuthState) : Prop :=
  Relation.ReflTransGen Step initialState s

/-! ### Profile completion prober (`checkProfileCompletion`) -/

/-- Ways a single timeout-wrapped RPC attempt can reject: the 10 s
timeout fires, or the underlying request rejects. -/
inductive ProbeFailure where
  | timeout
  | network (msg : String)
deriving DecidableEq, Repr

/-- Resolved shape of the should_user_complete_profile RPC call made
via `.single()`: a nullable boolean payload plus a nullable
PostgrestError. -/
structure RpcResponse where
  data : Option Bool
  error : Option String
deriving DecidableEq, Repr

/-- Retry loop of `withRetry`: attempt `i`, and while fuel remains retry
the next attempt on rejection; the last rejection is rethrown. -/
def withRetryAux (f : Nat → Except ProbeFailure RpcResponse) :
    Nat → Nat → Except ProbeFailure RpcResponse
  | i, 0 => f i
  | i, fuel + 1 =>
      match f i with
      | .ok a => .ok a
      | .error _ => withRetryAux f (i + 1) fuel

/-- `withRetry(fn, retries, delayMs)`: runs `fn` up to `retries + 1`
times (the delay does not affect the value). -/
def withRetry (f : Nat → Except ProbeFailure RpcResponse) (retries : Nat) :
    Except ProbeFailure RpcResponse :=
  withRetryAux f 0 retries

/-- JavaScript negation `!data` of a `boolean | null` value: `true`
unless the value is exactly `true`. -/
def needsFromData (d : Option Bool) : Bool :=
  match d with
  | some true => false
  | _ => true

/-- `checkProfileCompletion`, parameterized by the outcome of the
session refresh and by the outcome of each timeout-wrapped RPC attempt.
A refresh failure, a retry-exhausted rejection, or a non-null
PostgrestError all fall into the catch branch returning `true`; a
resolved response yields `!data`. -/
def checkProfileCompletion (refresh : Except AuthError Unit)
    (attempt : Nat → Except ProbeFailure RpcResponse) : Bool :=
  match refresh with
  | .error _ => true
  | .ok _ =>
      match withRetry attempt 3 with
      | .error _ => true
      | .ok resp =>
          match resp.error with
          | some _ => true
          | none => needsFromData resp.data

/-- An attempt counts as failed when its promise rejected (timeout or
network) or it resolved carrying a non-null PostgrestError. -/
def attemptFailed : Except ProbeFailure RpcResponse → Bool
  | .error _ => true
  | .ok resp => resp.error.isSome

/-! ### Debounce timer (`debounceRef` and `debounce`) -/

/-- The single pending probe request: the captured subject identifier
and the instant the timer fires (schedule time + delay). -/
structure DebounceState where
  pending : Option (String × Nat)
deriving DecidableEq, Repr

/-- `debounce(fn, delay)()`: clear any pending timer and store a fresh
one firing `delay` after `now`. -/
def debounceSchedule (now : Nat) (subject : String) (delay : Nat)
    (_st : DebounceState) : DebounceState :=
  ⟨some (subject, now + delay)⟩

/-- Fire the pending timer if its deadline has passed by `now`,
returning the subjects whose probes actually execute. -/
def fireDue (st : DebounceState) (now : Nat) : DebounceState × List String :=
  match st.pending with
  | some (u, ft) => if ft ≤ now then (⟨none⟩, [u]) else (st, [])
  | none => (st, [])

/-- Process timestamped `SIGNED_IN` events (time-ordered): before
handling an event any due timer fires, the event then schedules its
500 ms probe; after the last event the surviving timer fires.
Returns the subjects probed, in execution order. -/
def processEvents : List (Nat × String) → DebounceState → List String
  | [], st =>
      match st.pending with
      | some (u, _) => [u]
      | none => []
  | (t, u) :: rest, st =>
      let (st1, fired) := fireDue st t
      fired ++ processEvents rest (debounceSchedule t u 500 st1)

/-! ### Subscription singleton (`authListener` and the effect) -/

/-- Process-wide subscription state: the module-scoped `authListener`
guard plus the handlers actually registered with the platform. -/
structure SubSys where
  guard : Option Nat
  platform : List Nat
deriving DecidableEq, Repr

/-- No listener registered yet. -/
def subInit : SubSys := ⟨none, []⟩

/-- The subscription effect body: `if (!authListener)` register a new
handler with the platform and store its subscription in the guard;
otherwise do nothing. -/
def subSetup (s : SubSys) (newId : Nat) : SubSys :=
  match s.guard with
  | none => ⟨some newId, s.platform ++ [newId]⟩
  | some _ => s

/-- The effect cleanup: `if (authListener)` unsubscribe it from the
platform and clear the guard; otherwise do nothing. -/
def subCleanup (s : SubSys) : SubSys :=
  match s.guard with
  | some id => ⟨none, s.platform.erase id⟩
  | none => s

/-- Number of handler invocations one platform event produces. -/
def deliveryCount (s : SubSys) : Nat := s.platform.length

/-! ### Interactive operations (`signInWithGoogle`, `signOut`) -/

/-- Query parameters parsed from the OAuth callback URL, together with
the separately returned `errorCode`. -/
structure OAuthParams where
  errorCode : Option String
  error : Option String
  error_description : Option String
  access_token : Option String
  refresh_token : Option String
deriving DecidableEq, Repr

/-- Outcome of `WebBrowser.openAuthSessionAsync`: the redirect came back
(`success` with a callback URL to parse) or it did not (cancel,
dismissal, or any other result type). -/
inductive BrowserOutcome where
  | notSuccess
  | success (params : OAuthParams)
deriving DecidableEq, Repr

/-- Outcomes of the external calls `signInWithGoogle` performs, in
order: OAuth initialization (yielding `data.url`), the browser round
trip, and `setSession`. -/
structure SignInEnv where
  oauthInit : Except AuthError (Option String)
  browser : BrowserOutcome
  setSession : Except AuthError Session
deriving Repr

/-- `signInWithGoogle`: entry sets `loading: true, error: null`; each
failure (OAuth init error, missing URL, non-success browser result,
provider error params, missing access token, `setSession` error) lands
in the catch branch; a fully successful flow performs no further state
update itself (the `SIGNED_IN` event does). -/
def signInWithGoogle (prev : AuthState) (env : SignInEnv) : AuthState :=
  let started := opStart prev
  match env.oauthInit with
  | .error e => opFail started e
  | .ok none => opFail started AuthError.noOAuthUrl
  | .ok (some _url) =>
      match env.browser with
      | .notSuccess => opFail started AuthError.oauthCanceled
      | .success params =>
          if params.errorCode.isSome || params.error.isSome then
            opFail started
              (if params.error_description =
                  some "403: Only student email addresses are allowed" then
                AuthError.studentEmailRequired
              else
                AuthError.oauthError
                  ((params.errorCode.getD "").append (params.error.getD "")))
          else
            match params.access_token with
            | none => opFail started AuthError.noAccessToken
            | some _ =>
                match env.setSession with
                | .error e => opFail started e
                | .ok _sess => started

/-- `signOut`: entry sets `loading: true, error: null`; on platform
success every field is cleared; on failure the catch branch applies. -/
def signOut (prev : AuthState) (outcome : Except AuthError Unit) : AuthState :=
  let started := opStart prev
  match outcome with
  | .ok _ => signedOutState
  | .error e => opFail started e

/-! ### Helper lemmas -/

/-- A resolved attempt short-circuits the retry loop. -/
theorem withRetryAux_ok (f : Nat → Except ProbeFailure RpcResponse)
    (i fuel : Nat) (a : RpcResponse) (h : f i = Except.ok a) :
    withRetryAux f i fuel = Except.ok a := by
  cases fuel <;> simp [withRetryAux, h]

/-- If every attempt the loop can reach is failed, the value of the
retry loop is failed as well. -/
theorem withRetryAux_failed (f : Nat → Except ProbeFailure RpcResponse)
    (fuel : Nat) :
    ∀ i, (∀ j, j ≤ i + fuel → attemptFailed (f j) = true) →
      attemptFailed (withRetryAux f i fuel) = true := by
  induction fuel with
  | zero =>
      intro i h
      simpa [withRetryAux] using h i (by omega)
  | succ fuel ih =>
      intro i h
      have hi := h i (by omega)
      cases hf : f i with
      | ok a => simpa [withRetryAux, hf] using hi
      | error e =>
          have := ih (i + 1) (fun j hj => h j (by omega))
          simpa [withRetryAux, hf] using this

/-- A failed retry result makes the probe fall back to `true`. -/
theorem checkProfileCompletion_of_failed
    (attempt : Nat → Except ProbeFailure RpcResponse)
    (h : attemptFailed (withRetry attempt 3) = true) :
    checkProfileCompletion (Except.ok ()) attempt = true := by
  unfold checkProfileCompletion
  cases hr : withRetry attempt 3 with
  | error e => rfl
  | ok resp =>
      rw [hr] at h
      cases he : resp.error with
      | some m => simp [he]
      | none => simp [attemptFailed, he] at h

/-! ### Claims -/

/-- C1: in every reachable auth snapshot, the `user` field is exactly
the user embedded in `session` when a session is present, and absent
when `session` is absent. -/
theorem user_matches_session (s : AuthState) (h : Reachable s) :
    s.user = s.session.map Session.user := by
  induction h with
  | refl => rfl
  | tail _ hstep ih =>
      cases hstep with
      | initDone outcome =>
          cases outcome <;> simp [initializeSession]
      | eventDirect session => simp [directUpdate]
      | probeApplied sess npc => simp [signedInApply]
      | opStarted => simpa [opStart] using ih
      | opFailed e => simpa [opFail] using ih
      | signOutDone => simp [signedOutState]
      | getSessionDone session probeRes => simp [getSessionApply]

/-- C1 witness: the invariant evaluated on a concrete reachable state
(one sign-out completion after the initial state). -/
theorem user_matches_session_witness :
    signedOutState.user = signedOutState.session.map Session.user :=
  user_matches_session signedOutState
    (Relation.ReflTransGen.single (Step.signOutDone initialState))

/-- C2: no reachable auth snapshot has `session` absent together with a
resolved (non-null) `needsProfileCompletion`. -/
theorem npc_null_without_session (s : AuthState) (h : Reachable s) :
    s.session = none → s.needsProfileCompletion = none := by
  induction h with
  | refl => intro _; rfl
  | tail _ hstep ih =>
      cases hstep with
      | initDone outcome =>
          cases outcome <;> intro _ <;> simp [initializeSession]
      | eventDirect session => intro _; simp [directUpdate]
      | probeApplied sess npc =>
          intro hs
          simp [signedInApply] at hs
      | opStarted =>
          intro hs
          exact ih (by simpa [opStart] using hs)
      | opFailed e => intro _; simp [opFail]
      | signOutDone => intro _; simp [signedOutState]
      | getSessionDone session probeRes =>
          intro hs
          simp [getSessionApply] at hs ⊢
          simp [hs, hasUserId]

/-- C2 witness: the invariant evaluated on a concrete reachable state
with an absent session (a sign-out completion). -/
theorem npc_null_without_session_witness :
    signedOutState.needsProfileCompletion = none :=
  npc_null_without_session signedOutState
    (Relation.ReflTransGen.single (Step.signOutDone initialState)) rfl

/-- C3: when all four RPC attempts the retry loop can reach fail
(timeout, network rejection, or remote error), the probe returns
`true`, the applied state resolves `needsProfileCompletion` to `true`,
and stores no error. -/
theorem probe_all_fail (attempt : Nat → Except ProbeFailure RpcResponse)
    (sess : Session) (h : ∀ i, i < 4 → attemptFailed (attempt i) = true) :
    checkProfileCompletion (Except.ok ()) attempt = true ∧
    (signedInApply sess
        (checkProfileCompletion (Except.ok ()) attempt)).needsProfileCompletion =
      some true ∧
    (signedInApply sess
        (checkProfileCompletion (Except.ok ()) attempt)).error = none := by
  have hr : attemptFailed (withRetry attempt 3) = true :=
    withRetryAux_failed attempt 3 0 (fun j hj => h j (by omega))
  have hc := checkProfileCompletion_of_failed attempt hr
  exact ⟨hc, by simp [signedInApply, hc], by simp [signedInApply]⟩

/-- C3 witness: every attempt times out for a concrete subject. -/
theorem probe_all_fail_witness :
    checkProfileCompletion (Except.ok ())
        (fun _ => Except.error ProbeFailure.timeout) = true ∧
    (signedInApply ⟨⟨"user-1"⟩⟩
        (checkProfileCompletion (Except.ok ())
          (fun _ => Except.error ProbeFailure.timeout))).error = none :=
  ⟨(probe_all_fail (fun _ => Except.error ProbeFailure.timeout) ⟨⟨"user-1"⟩⟩
      (fun _ _ => rfl)).1,
   (probe_all_fail (fun _ => Except.error ProbeFailure.timeout) ⟨⟨"user-1"⟩⟩
      (fun _ _ => rfl)).2.2⟩

/-- C10: when the first RPC attempt resolves with payload `d` and a
null error, the probe returns the JavaScript negation of `d`: `true`
exactly when the remote call returned `false` or `null`. -/
theorem probe_inverts_rpc (attempt : Nat → Except ProbeFailure RpcResponse)
    (d : Option Bool) (h : attempt 0 = Except.ok ⟨d, none⟩) :
    checkProfileCompletion (Except.ok ()) attempt = needsFromData d ∧
    (checkProfileCompletion (Except.ok ()) attempt = true ↔
      (d = some false ∨ d = none)) := by
  have hc : checkProfileCompletion (Except.ok ()) attempt = needsFromData d := by
    unfold checkProfileCompletion withRetry
    rw [withRetryAux_ok attempt 0 3 ⟨d, none⟩ h]
  refine ⟨hc, ?_⟩
  rw [hc]
  rcases d with _ | b
  · simp [needsFromData]
  · cases b <;> simp [needsFromData]

/-- C10 witness: a successful attempt returning `true` yields a probe
result of `false`. -/
theorem probe_inverts_rpc_witness :
    checkProfileCompletion (Except.ok ())
        (fun _ => Except.ok ⟨some true, none⟩) = needsFromData (some true) :=
  (probe_inverts_rpc (fun _ => Except.ok ⟨some true, none⟩) (some true) rfl).1

/-- C4: two `SIGNED_IN` events inside the 500 ms debounce window
execute exactly one probe, the one for the second subject; the first
pending request is cancelled, not queued. -/
theorem debounce_last_write_wins (t1 t2 : Nat) (u1 u2 : String)
    (h1 : t1 ≤ t2) (h2 : t2 < t1 + 500) :
    processEvents [(t1, u1), (t2, u2)] ⟨none⟩ = [u2] := by
  have hlt : ¬ (t1 + 500 ≤ t2) := by omega
  simp [processEvents, fireDue, debounceSchedule, hlt]

/-- C4 witness: events at 0 ms and 100 ms collapse to one probe for the
second subject. -/
theorem debounce_last_write_wins_witness :
    (0 : Nat) ≤ 100 ∧ (100 : Nat) < 0 + 500 ∧
    processEvents [(0, "alice"), (100, "bob")] ⟨none⟩ = ["bob"] :=
  ⟨by decide, by decide, debounce_last_write_wins 0 100 "alice" "bob"
    (by decide) (by decide)⟩

/-- C5: running the subscription effect twice without a teardown leaves
exactly one handler registered with the platform, so each event is
delivered downstream exactly once. -/
theorem subscribe_idempotent (i j : Nat) :
    (subSetup (subSetup subInit i) j).platform = [i] ∧
    deliveryCount (subSetup (subSetup subInit i) j) = 1 := by
  simp [subSetup, subInit, deliveryCount]

/-- C6 counterexample: after two mounts and one unmount the listener
does NOT remain registered — an event is delivered to zero handlers,
refuting the claim that the remaining consumer still receives it. -/
theorem release_on_first_unmount_counterexample :
    ¬ deliveryCount (subCleanup (subSetup (subSetup subInit 0) 1)) = 1 := by
  decide

/-- C6 amended: the cleanup releases the process-wide subscription on
the FIRST unmount of any consuming context: after two mounts and one
unmount no handler remains; a second cleanup is a no-op; the cleared
guard lets a future mount register a fresh handler. -/
theorem release_on_first_unmount (i j k : Nat) :
    subCleanup (subSetup (subSetup subInit i) j) = subInit ∧
    subCleanup (subCleanup (subSetup (subSetup subInit i) j)) = subInit ∧
    (subSetup (subCleanup (subSetup (subSetup subInit i) j)) k).platform = [k] := by
  simp [subSetup, subCleanup, subInit]

/-- C7: initialization with an existing session stores the session and
its user immediately with a null probe flag and `loading: false`; a
failed session request stores the error, clears `loading`, and leaves
the session absent. -/
theorem initialize_session_behavior (sess : Session) (e : AuthError) :
    (initializeSession (Except.ok (some sess))).session = some sess ∧
    (initializeSession (Except.ok (some sess))).user = some sess.user ∧
    (initializeSession (Except.ok (some sess))).needsProfileCompletion = none ∧
    (initializeSession (Except.ok (some sess))).loading = false ∧
    (initializeSession (Except.error e)).error = some e ∧
    (initializeSession (Except.error e)).loading = false ∧
    (initializeSession (Except.error e)).session = none := by
  simp [initializeSession]

/-- C8: a successfully completed sign-out yields the fully cleared
state, whatever the prior state was. -/
theorem sign_out_clears_state (prev : AuthState) :
    signOut prev (Except.ok ()) =
      { session := none, user := none, loading := false, error := none,
        needsProfileCompletion := none } := rfl

/-- C9: a cancelled browser redirect ends the sign-in with
`loading: false`, the OAuth-cancelled error stored, the session still
absent, and every other field unchanged from before the operation. -/
theorem sign_in_cancelled (prev : AuthState) (url : String)
    (setS : Except AuthError Session)
    (hs : prev.session = none) (hn : prev.needsProfileCompletion = none) :
    signInWithGoogle prev
        ⟨Except.ok (some url), BrowserOutcome.notSuccess, setS⟩ =
      { prev with
        loading := false
        error := some AuthError.oauthCanceled } ∧
    (signInWithGoogle prev
        ⟨Except.ok (some url), BrowserOutcome.notSuccess, setS⟩).session = none := by
  obtain ⟨ps, pu, pl, pe, pn⟩ := prev
  simp only [] at hs hn
  subst hs
  subst hn
  simp [signInWithGoogle, opStart, opFail]

/-- C9 witness: cancelling from the signed-out initial state. -/
theorem sign_in_cancelled_witness :
    signInWithGoogle initialState
        ⟨Except.ok (some "https://accounts.example/auth"),
          BrowserOutcome.notSuccess, Except.error AuthError.signIn⟩ =
      { initialState with
        loading := false
        error := some AuthError.oauthCanceled } :=
  (sign_in_cancelled initialState "https://accounts.example/auth"
    (Except.error AuthError.signIn) rfl rfl).1

end Cendy
